import Mathlib

/-!
# go-eccodes: the binding layer around the native GRIB decoder

A shallow embedding of `message.go` and `native/eccodes-values.go`.

* Pointers (`unsafe.Pointer`, `Ccodes_handle`, `*C.char`) are natural numbers, `0` is `nil`.
* The native library is a black box: a record `Native` of reply functions.  Every reply may
  depend on the whole history of calls made so far (the trace), so the record describes an
  arbitrary deterministic native library.
* The binding runs in a `World`: the trace of calls that crossed the language boundary
  (allocations, frees, decoder calls, log lines), the C allocations that are live, and the
  allocator's counter.
* A Go slice is `Option (List α)`: `none` is the nil slice.
* A `float64` is carried as its 64-bit pattern; the binding only moves such values around.
* A run-time panic or a crash is the `Outcome.panic` result: the function does not return.
-/

namespace Eccodes

/-! ## Machine integers -/

/-- Conversion of a 64-bit pattern to Go `int` / `int64` (two's complement). -/
def toInt64 (n : Nat) : Int :=
  if n % 2 ^ 64 < 2 ^ 63 then ((n % 2 ^ 64 : Nat) : Int) else ((n % 2 ^ 64 : Nat) : Int) - 2 ^ 64

/-- Conversion of a Go `int64` to `size_t` / `uintptr` (64 bits, unsigned). -/
def toUint64 (i : Int) : Nat := (i % 2 ^ 64).toNat

/-- Modelled from the spec: `CsizeT` is declared outside `src/`; it is the native `size_t`,
taken to be 64 bits wide, so arithmetic on it wraps at `2 ^ 64`. -/
def CsizeT (n : Nat) : Nat := n % 2 ^ 64

/-- Modelled from the spec: `SizeOfFloat64` is declared outside `src/`; a float64 has 8 bytes. -/
def SizeOfFloat64 : Int := 8

def MaxStringLength : Nat := 1030

def ParameterNumberOfPoints : String := "numberOfDataPoints"

/-- Modelled from the spec: `parameterMissingValue` is declared outside `src/`; it names the
sentinel "missing value" field that construction sets to NaN. -/
def parameterMissingValue : String := "missingValue"

/-- Bit pattern of Go's `math.NaN()`. -/
def NaN : Nat := 0x7FF8000000000001

/-! ## Errors and outcomes -/

/-- The Go `error` values the binding can return. `native code` is
`errors.New(Cgrib_get_error_message(code))`. -/
inductive GoError where
  | EOF
  | native (code : Int)
  | errno (n : Nat)
  | message (text : String)
  | wrapf (inner : GoError) (text : String)
  deriving DecidableEq, Repr

/-- Why a Go function did not return. -/
inductive Abort where
  | makeslice_len
  | index_out_of_range
  | slice_bounds_out_of_range
  | segfault
  deriving DecidableEq, Repr

/-- Result of running a Go function that may panic. -/
inductive Outcome (α : Type) where
  | ret (a : α)
  | panic (why : Abort)
  deriving DecidableEq, Repr

/-! ## The world across the language boundary -/

/-- One crossing of the language boundary, or a line written to the leak log. -/
inductive Event where
  | malloc (size : Nat) (ptr : Nat)
  | free (ptr : Nat)
  | codes_get_long (h : Nat) (key : String) (status : Int)
  | codes_set_long (h : Nat) (key : String) (value : Int) (status : Int)
  | codes_get_double (h : Nat) (key : String) (status : Int)
  | codes_set_double (h : Nat) (key : String) (value : Nat) (status : Int)
  | codes_get_size (h : Nat) (key : String) (status : Int)
  | codes_get_length (h : Nat) (key : String) (status : Int)
  | codes_get_string (h : Nat) (key : String) (cap : Nat) (len : Nat) (status : Int)
  | codes_get_string_array (h : Nat) (key : String) (arr : Nat) (size : Nat) (status : Int)
  | codes_get_double_array (h : Nat) (key : String) (cap : Nat) (size : Nat) (status : Int)
  | codes_grib_get_data (h : Nat) (cap : Nat) (status : Int)
  | codes_grib_get_data_ptr (h : Nat) (lat : Nat) (lon : Nat) (val : Nat) (status : Int)
  | codes_handle_clone (h : Nat) (clone : Nat) (errno : Nat)
  | Ccodes_handle_delete (h : Nat)
  | log_print (text : String)
  | log_printf (key : String) (length : Int)
  deriving DecidableEq, Repr

/-- Reply of the native string accessor: status, the bytes it wrote at the start of the
buffer, and the length it stored back through the in/out length pointer. -/
structure StringReply where
  status : Int
  written : List Nat
  length : Nat

/-- Reply of the native string-array accessor: status, the content of every slot of the
pointer array after the call, the size stored back through the in/out size pointer, and the
bytes of native memory (address = index) in which the strings live. -/
structure StringArrayReply where
  status : Int
  slots : Nat → Nat
  size : Nat
  mem : List Nat

/-- Reply of the native grid extraction: status and the values written to the three buffers. -/
structure DataReply where
  status : Int
  lats : List Nat
  lons : List Nat
  vals : List Nat

/-- The native library and the platform, as a black box. The first argument of every reply is
the trace of events so far. `codes_handle_delete` replies with the status of the native handle
delete. `maxAlloc` is the largest allocation the Go runtime accepts in `make`. -/
structure Native where
  codes_get_long : List Event → Nat → String → Int × Int
  codes_set_long : List Event → Nat → String → Int → Int
  codes_get_double : List Event → Nat → String → Int × Nat
  codes_set_double : List Event → Nat → String → Nat → Int
  codes_get_size : List Event → Nat → String → Int × Nat
  codes_get_length : List Event → Nat → String → Int × Nat
  codes_get_string : List Event → Nat → String → Nat → Nat → StringReply
  codes_get_string_array : List Event → Nat → String → Nat → Nat → StringArrayReply
  codes_get_double_array : List Event → Nat → String → Nat → Nat → Int × List Nat
  codes_grib_get_data : List Event → Nat → DataReply
  codes_handle_clone : List Event → Nat → Nat × Nat
  codes_handle_delete : List Event → Nat → Int
  maxAlloc : Nat

structure World where
  trace : List Event
  live : List Nat
  next : Nat
  deriving DecidableEq, Repr

def World.emit (w : World) (e : Event) : World :=
  { w with trace := w.trace ++ [e] }

/-- The events added between an earlier world and a later one. -/
def newEvents (w w' : World) : List Event := w'.trace.drop w.trace.length

/-- `C.malloc`: a fresh, non-nil pointer (cgo's `C.malloc` never returns nil). -/
def C_malloc (size : Nat) (w : World) : Nat × World :=
  (w.next + 1,
   { trace := w.trace ++ [Event.malloc size (w.next + 1)],
     live := (w.next + 1) :: w.live,
     next := w.next + 1 })

/-- `C.free`: releases the allocation; `free(NULL)` does nothing. -/
def C_free (p : Nat) (w : World) : World :=
  { w with trace := w.trace ++ [Event.free p],
           live := if p = 0 then w.live else w.live.erase p }

/-- `C.CString`: a malloc'ed copy of the string with its terminator. -/
def C_CString (s : String) (w : World) : Nat × World :=
  C_malloc (s.utf8ByteSize + 1) w

/-- Modelled from the spec: `Cmalloc` is declared outside `src/`; it allocates a native buffer
that the host runtime's collector does not manage. -/
def Cmalloc (size : Nat) (w : World) : Nat × World := C_malloc size w

/-- Modelled from the spec: `Cfree` is declared outside `src/`; it is the native deallocator. -/
def Cfree (p : Nat) (w : World) : World := C_free p w

/-! ## Go run-time helpers -/

/-- `make([]T, len)`: the length of the new slice, or `none` when the runtime panics
(negative length, or more than `maxAlloc` bytes). -/
def makeslice (maxAlloc elemSize : Nat) (len : Int) : Option Nat :=
  if len < 0 ∨ maxAlloc < len.toNat * elemSize then none else some len.toNat

/-- What a buffer holds after a native call wrote `data` at its start: the Go slice keeps its
length whatever was written. -/
def overlay (buf data : List Nat) : List Nat :=
  data.take buf.length ++ buf.drop data.length

/-- `C.GoString`: the bytes from `p` up to the first NUL; the empty string for a nil pointer;
`none` when the read leaves the mapped memory. -/
def GoString (mem : List Nat) (p : Nat) : Option (List Nat) :=
  if p = 0 then some []
  else if 0 ∈ mem.drop p then some ((mem.drop p).takeWhile (fun b => b ≠ 0)) else none

/-! ## native/eccodes-values.go -/

def Ccodes_get_long (N : Native) (handle : Nat) (key : String) (w : World) :
    (Int × Option GoError) × World :=
  let a := C_CString key w
  let r := N.codes_get_long a.2.trace handle key
  let w2 := a.2.emit (Event.codes_get_long handle key r.1)
  if r.1 ≠ 0 then ((0, some (GoError.native r.1)), C_free a.1 w2)
  else ((r.2, none), C_free a.1 w2)

def Ccodes_clone (N : Native) (handle : Nat) (w : World) : (Nat × Option GoError) × World :=
  let r := N.codes_handle_clone w.trace handle
  let w1 := w.emit (Event.codes_handle_clone handle r.1 r.2)
  if r.1 = 0 then ((0, some GoError.EOF), w1)
  else ((r.1, if r.2 = 0 then none else some (GoError.errno r.2)), w1)

def Ccodes_set_long (N : Native) (handle : Nat) (key : String) (value : Int) (w : World) :
    Option GoError × World :=
  let a := C_CString key w
  let s := N.codes_set_long a.2.trace handle key value
  let w2 := a.2.emit (Event.codes_set_long handle key value s)
  if s ≠ 0 then (some (GoError.native s), C_free a.1 w2)
  else (none, C_free a.1 w2)

def Ccodes_get_double (N : Native) (handle : Nat) (key : String) (w : World) :
    (Nat × Option GoError) × World :=
  let a := C_CString key w
  let r := N.codes_get_double a.2.trace handle key
  let w2 := a.2.emit (Event.codes_get_double handle key r.1)
  if r.1 ≠ 0 then ((0, some (GoError.native r.1)), C_free a.1 w2)
  else ((r.2, none), C_free a.1 w2)

def Ccodes_set_double (N : Native) (handle : Nat) (key : String) (value : Nat) (w : World) :
    Option GoError × World :=
  let a := C_CString key w
  let s := N.codes_set_double a.2.trace handle key value
  let w2 := a.2.emit (Event.codes_set_double handle key value s)
  if s ≠ 0 then (some (GoError.native s), C_free a.1 w2)
  else (none, C_free a.1 w2)

/-- The conversion loop of `Ccodes_get_string_array`: iteration `i` reads the C string at
address `first + i * charSize`, where `first` is the content of slot 0 of the pointer array. -/
def goStringsLoop (mem : List Nat) (first : Nat) (i : Nat) : Nat → Option (List (List Nat))
  | 0 => some []
  | k + 1 =>
    match GoString mem ((first + i * 8) % 2 ^ 64) with
    | none => none
    | some s => (goStringsLoop mem first (i + 1) k).map (fun rest => s :: rest)

def Ccodes_get_string_array (N : Native) (handle : Nat) (key : String) (w : World) :
    Outcome (Option (List (List Nat)) × Option GoError) × World :=
  let a := C_CString key w
  let q := N.codes_get_size a.2.trace handle key
  let w2 := a.2.emit (Event.codes_get_size handle key q.1)
  if q.1 ≠ 0 then (Outcome.ret (none, some (GoError.native q.1)), C_free a.1 w2)
  else
    let b := C_malloc (CsizeT (q.2 * 8)) w2
    if b.1 = 0 then
      (Outcome.ret (none, some (GoError.message "Error: Could not allocate memory")),
        C_free a.1 b.2)
    else
      let r := N.codes_get_string_array b.2.trace handle key b.1 (CsizeT q.2)
      let w4 := b.2.emit (Event.codes_get_string_array handle key b.1 (CsizeT q.2) r.status)
      if r.status ≠ 0 then (Outcome.ret (none, some (GoError.native r.status)), C_free a.1 w4)
      else
        match makeslice N.maxAlloc 16 (toInt64 r.size) with
        | none => (Outcome.panic Abort.makeslice_len, C_free a.1 w4)
        | some n =>
          match goStringsLoop r.mem (r.slots 0) 0 n with
          | none => (Outcome.panic Abort.segfault, w4)
          | some strs => (Outcome.ret (some strs, none), C_free a.1 (C_free b.1 w4))

def Ccodes_get_double_array (N : Native) (handle : Nat) (key : String) (w : World) :
    Outcome (Option (List Nat) × Option GoError) × World :=
  let a := C_CString key w
  let q := N.codes_get_size a.2.trace handle key
  let w2 := a.2.emit (Event.codes_get_size handle key q.1)
  if q.1 ≠ 0 then (Outcome.ret (none, some (GoError.native q.1)), C_free a.1 w2)
  else
    match makeslice N.maxAlloc 8 (toInt64 q.2) with
    | none => (Outcome.panic Abort.makeslice_len, C_free a.1 w2)
    | some n =>
      if n = 0 then (Outcome.panic Abort.index_out_of_range, C_free a.1 w2)
      else
        let r := N.codes_get_double_array w2.trace handle key n (CsizeT q.2)
        let w3 := w2.emit (Event.codes_get_double_array handle key n (CsizeT q.2) r.1)
        if r.1 ≠ 0 then (Outcome.ret (none, some (GoError.native r.1)), C_free a.1 w3)
        else (Outcome.ret (some (overlay (List.replicate n 0) r.2), none), C_free a.1 w3)

def Ccodes_get_string (N : Native) (handle : Nat) (key : String) (w : World) :
    Outcome (List Nat × Option GoError) × World :=
  let a := C_CString key w
  let q := N.codes_get_length a.2.trace handle key
  let w2 := a.2.emit (Event.codes_get_length handle key q.1)
  if q.1 ≠ 0 then (Outcome.ret ([], some (GoError.native q.1)), C_free a.1 w2)
  else
    let length := CsizeT (q.2 + 1)
    let buf : Option Nat × World :=
      if length > MaxStringLength then
        (makeslice N.maxAlloc 1 (length : Int),
          w2.emit (Event.log_printf key (toInt64 length)))
      else (some MaxStringLength, w2)
    match buf.1 with
    | none => (Outcome.panic Abort.makeslice_len, C_free a.1 buf.2)
    | some cap =>
      if cap = 0 then (Outcome.panic Abort.index_out_of_range, C_free a.1 buf.2)
      else
        let r := N.codes_get_string buf.2.trace handle key cap length
        let w3 := buf.2.emit (Event.codes_get_string handle key cap length r.status)
        if r.status ≠ 0 then (Outcome.ret ([], some (GoError.native r.status)), C_free a.1 w3)
        else if CsizeT r.length = 0 then (Outcome.ret ([], none), C_free a.1 w3)
        else if CsizeT r.length - 1 > cap then
          (Outcome.panic Abort.slice_bounds_out_of_range, C_free a.1 w3)
        else
          (Outcome.ret ((overlay (List.replicate cap 0) r.written).take (CsizeT r.length - 1),
              none), C_free a.1 w3)

def Ccodes_grib_get_data (N : Native) (handle : Nat) (w : World) :
    Outcome (Option (List Nat) × Option (List Nat) × Option (List Nat) × Option GoError)
      × World :=
  let g := Ccodes_get_long N handle ParameterNumberOfPoints w
  match g.1.2 with
  | some err =>
    (Outcome.ret (none, none, none,
      some (GoError.wrapf err "failed to get long value of 'numberOfDataPoints'")), g.2)
  | none =>
    match makeslice N.maxAlloc 8 g.1.1 with
    | none => (Outcome.panic Abort.makeslice_len, g.2)
    | some n =>
      if n = 0 then (Outcome.panic Abort.index_out_of_range, g.2)
      else
        let r := N.codes_grib_get_data g.2.trace handle
        let w2 := g.2.emit (Event.codes_grib_get_data handle n r.status)
        if r.status ≠ 0 then
          (Outcome.ret (none, none, none, some (GoError.native r.status)), w2)
        else
          (Outcome.ret (some (overlay (List.replicate n 0) r.lats),
            some (overlay (List.replicate n 0) r.lons),
            some (overlay (List.replicate n 0) r.vals), none), w2)

def Ccodes_grib_get_data_unsafe (N : Native) (handle : Nat) (w : World) :
    (Nat × Nat × Nat × Option GoError) × World :=
  let g := Ccodes_get_long N handle ParameterNumberOfPoints w
  match g.1.2 with
  | some err =>
    ((0, 0, 0, some (GoError.wrapf err "failed to get long value of 'numberOfDataPoints'")),
      g.2)
  | none =>
    let la := Cmalloc (CsizeT (toUint64 (g.1.1 * SizeOfFloat64))) g.2
    let lo := Cmalloc (CsizeT (toUint64 (g.1.1 * SizeOfFloat64))) la.2
    let va := Cmalloc (CsizeT (toUint64 (g.1.1 * SizeOfFloat64))) lo.2
    let r := N.codes_grib_get_data va.2.trace handle
    let w2 := va.2.emit (Event.codes_grib_get_data_ptr handle la.1 lo.1 va.1 r.status)
    if r.status ≠ 0 then
      ((0, 0, 0, some (GoError.native r.status)), Cfree va.1 (Cfree lo.1 (Cfree la.1 w2)))
    else ((la.1, lo.1, va.1, none), w2)

/-- Modelled from the spec: `Ccodes_handle_delete` is declared outside `src/`; it deletes the
message handle with one native delete call and, like every accessor of the native layer,
translates a non-zero status of that call into an error and a zero status into nil. The call
is recorded by `Close` as the event `Event.Ccodes_handle_delete`. -/
def Native.Ccodes_handle_delete (N : Native) (trace : List Event) (handle : Nat) :
    Option GoError :=
  if N.codes_handle_delete trace handle ≠ 0 then
    some (GoError.native (N.codes_handle_delete trace handle))
  else none

/-! ## message.go -/

structure message where
  handle : Nat
  deriving DecidableEq, Repr

/-- Modelled from the spec: `Float64ArrayUnsafe` and `newFloat64ArrayUnsafe` are declared
outside `src/`; the view wraps the native pointer it is built from. -/
structure Float64ArrayUnsafe where
  ptr : Nat
  deriving DecidableEq, Repr

def newFloat64ArrayUnsafe (p : Nat) : Float64ArrayUnsafe := ⟨p⟩

def message.isOpen (m : message) : Bool := m.handle != 0

def message.GetString (N : Native) (m : message) (key : String) (w : World) :=
  Ccodes_get_string N m.handle key w

def message.GetLong (N : Native) (m : message) (key : String) (w : World) :=
  Ccodes_get_long N m.handle key w

def message.SetLong (N : Native) (m : message) (key : String) (value : Int) (w : World) :=
  Ccodes_set_long N m.handle key value w

def message.GetDouble (N : Native) (m : message) (key : String) (w : World) :=
  Ccodes_get_double N m.handle key w

def message.GetStringArray (N : Native) (m : message) (key : String) (w : World) :=
  Ccodes_get_string_array N m.handle key w

def message.GetDoubleArray (N : Native) (m : message) (key : String) (w : World) :=
  Ccodes_get_double_array N m.handle key w

def message.SetDouble (N : Native) (m : message) (key : String) (value : Nat) (w : World) :=
  Ccodes_set_double N m.handle key value w

def message.Data (N : Native) (m : message) (w : World) :=
  Ccodes_grib_get_data N m.handle w

def message.DataUnsafe (N : Native) (m : message) (w : World) :
    (Option Float64ArrayUnsafe × Option Float64ArrayUnsafe × Option Float64ArrayUnsafe
      × Option GoError) × World :=
  let r := Ccodes_grib_get_data_unsafe N m.handle w
  match r.1.2.2.2 with
  | some err => ((none, none, none, some err), r.2)
  | none =>
    ((some (newFloat64ArrayUnsafe r.1.1), some (newFloat64ArrayUnsafe r.1.2.1),
      some (newFloat64ArrayUnsafe r.1.2.2.1), none), r.2)

/-- `Close`: the result of `native.Ccodes_handle_delete(m.handle)`; the deferred function
then sets the handle to nil. Returns the error, the message afterwards, and the world. -/
def message.Close (N : Native) (m : message) (w : World) : Option GoError × message × World :=
  (N.Ccodes_handle_delete w.trace m.handle, { handle := 0 },
    w.emit (Event.Ccodes_handle_delete m.handle))

/-- The finalizer the runtime runs on an unreachable message. -/
def messageFinalizer (N : Native) (m : message) (w : World) : message × World :=
  if m.isOpen then
    let c := message.Close N m (w.emit (Event.log_print "message is not closed"))
    (c.2.1, c.2.2)
  else (m, w)

/-- `newMessage`: wraps the handle and sets the missing value to NaN; the error of that
`SetDouble` is not looked at. (Registering the finalizer has no effect until collection.) -/
def newMessage (N : Native) (h : Nat) (w : World) : message × World :=
  let m : message := { handle := h }
  (m, (message.SetDouble N m parameterMissingValue NaN w).2)

def message.Clone (N : Native) (m : message) (w : World) :
    (Option message × Option GoError) × World :=
  let c := Ccodes_clone N m.handle w
  match c.1.2 with
  | some err => ((none, some err), c.2)
  | none =>
    let n := newMessage N c.1.1 c.2
    ((some n.1, none), n.2)

/-! ## Concrete native libraries used to exercise the definitions -/

/-- A native library in which every call succeeds: the point count is 2, sizes are 2, string
lengths are 2, the clone of any handle is handle 7. -/
def nativeOk : Native where
  codes_get_long := fun _ _ _ => (0, 2)
  codes_set_long := fun _ _ _ _ => 0
  codes_get_double := fun _ _ _ => (0, 0)
  codes_set_double := fun _ _ _ _ => 0
  codes_get_size := fun _ _ _ => (0, 2)
  codes_get_length := fun _ _ _ => (0, 2)
  codes_get_string := fun _ _ _ _ _ => ⟨0, [97, 98, 0], 3⟩
  codes_get_string_array := fun _ _ _ _ _ =>
    ⟨0, fun i => if i = 0 then 16 else 32, 2,
      [0, 0, 0, 0, 0, 0, 0, 0, 0, 0, 0, 0, 0, 0, 0, 0,
       97, 98, 0, 0, 0, 0, 0, 0, 0, 0, 0, 0, 0, 0, 0, 0,
       99, 100, 0]⟩
  codes_get_double_array := fun _ _ _ _ _ => (0, [1, 2])
  codes_grib_get_data := fun _ _ => ⟨0, [1, 2], [3, 4], [5, 6]⟩
  codes_handle_clone := fun _ _ => (7, 0)
  codes_handle_delete := fun _ _ => 0
  maxAlloc := 2 ^ 47

/-- The all-succeeding library, except that the length query reports `L`. -/
def nativeLen (L : Nat) : Native :=
  { nativeOk with codes_get_length := fun _ _ _ => (0, L) }

/-- The all-succeeding library, except that the size query reports zero elements. -/
def nativeEmpty : Native :=
  { nativeOk with codes_get_size := fun _ _ _ => (0, 0) }

/-- The all-succeeding library, except that the clone call leaves `errno` at 2 while returning
the non-null handle 7. -/
def nativeErrno : Native :=
  { nativeOk with codes_handle_clone := fun _ _ => (7, 2) }

/-- The all-succeeding library, except that the grid extraction fails with status -1. -/
def nativeDataFails : Native :=
  { nativeOk with codes_grib_get_data := fun _ _ => ⟨-1, [], [], []⟩ }

/-- The all-succeeding library, except that setting a double fails with status -6. -/
def nativeSetFails : Native :=
  { nativeOk with codes_set_double := fun _ _ _ _ => -6 }

/-- The all-succeeding library, except that the handle delete fails with status -3. -/
def nativeDeleteFails : Native :=
  { nativeOk with codes_handle_delete := fun _ _ => -3 }

/-- The all-succeeding library, except that reading a long fails with status -10. -/
def nativeLongFails : Native :=
  { nativeOk with codes_get_long := fun _ _ _ => (-10, 0) }

/-- The empty world: nothing allocated, nothing called. -/
def world0 : World := { trace := [], live := [], next := 0 }

/-! ## Observations on traces and helper definitions for the statements -/

/-- The handle argument of a call into the decoder (or into the delete wrapper); `none` for
allocator calls and log lines. -/
def Event.handle : Event → Option Nat
  | Event.malloc _ _ => none
  | Event.free _ => none
  | Event.codes_get_long h _ _ => some h
  | Event.codes_set_long h _ _ _ => some h
  | Event.codes_get_double h _ _ => some h
  | Event.codes_set_double h _ _ _ => some h
  | Event.codes_get_size h _ _ => some h
  | Event.codes_get_length h _ _ => some h
  | Event.codes_get_string h _ _ _ _ => some h
  | Event.codes_get_string_array h _ _ _ _ => some h
  | Event.codes_get_double_array h _ _ _ _ => some h
  | Event.codes_grib_get_data h _ _ => some h
  | Event.codes_grib_get_data_ptr h _ _ _ _ => some h
  | Event.codes_handle_clone h _ _ => some h
  | Event.Ccodes_handle_delete h => some h
  | Event.log_print _ => none
  | Event.log_printf _ _ => none

/-- The handles passed across the boundary by a run of events, in order. -/
def handlesPassed (seg : List Event) : List Nat := seg.filterMap Event.handle

/-- Every call across the boundary in the run carries the handle `h`, and there is at least
one such call. -/
def onlyHandle (h : Nat) (seg : List Event) : Prop :=
  handlesPassed seg ≠ [] ∧ ∀ x ∈ handlesPassed seg, x = h

/-- The status a native decoder call returned, as recorded in the event; `none` for events that
record no status (allocator calls, log lines, the clone call, and the delete event, which
records only the handle). -/
def Event.status : Event → Option Int
  | Event.malloc _ _ => none
  | Event.free _ => none
  | Event.codes_get_long _ _ st => some st
  | Event.codes_set_long _ _ _ st => some st
  | Event.codes_get_double _ _ st => some st
  | Event.codes_set_double _ _ _ st => some st
  | Event.codes_get_size _ _ st => some st
  | Event.codes_get_length _ _ st => some st
  | Event.codes_get_string _ _ _ _ st => some st
  | Event.codes_get_string_array _ _ _ _ st => some st
  | Event.codes_get_double_array _ _ _ _ st => some st
  | Event.codes_grib_get_data _ _ st => some st
  | Event.codes_grib_get_data_ptr _ _ _ _ st => some st
  | Event.codes_handle_clone _ _ _ => none
  | Event.Ccodes_handle_delete _ => none
  | Event.log_print _ => none
  | Event.log_printf _ _ => none

/-- The statuses returned by the native calls of a run of events, in order. -/
def statuses (seg : List Event) : List Int := seg.filterMap Event.status

/-- No status-returning native call follows one that failed. -/
def firstFailureIsLast : List Int → Prop
  | [] => True
  | s :: rest => if s = 0 then firstFailureIsLast rest else rest = []

/-- Some native call of the run returned a non-zero status. -/
def anyFailure (l : List Int) : Prop := ∃ s ∈ l, s ≠ 0

/-- The trace at which the getters make their first decoder call: the key has been copied to a
C string. -/
def afterKey (key : String) (w : World) : List Event :=
  w.trace ++ [Event.malloc (key.utf8ByteSize + 1) (w.next + 1)]

/-- The byte size `Ccodes_grib_get_data_unsafe` asks for each of its three buffers. -/
def unsafeSize (N : Native) (h : Nat) (w : World) : Nat :=
  CsizeT (toUint64 ((N.codes_get_long (afterKey ParameterNumberOfPoints w) h
    ParameterNumberOfPoints).2 * SizeOfFloat64))

/-- The trace at the moment `Ccodes_grib_get_data_unsafe` calls the native grid extraction. -/
def unsafeCallTrace (N : Native) (h : Nat) (w : World) : List Event :=
  w.trace ++ [Event.malloc (ParameterNumberOfPoints.utf8ByteSize + 1) (w.next + 1),
    Event.codes_get_long h ParameterNumberOfPoints 0, Event.free (w.next + 1),
    Event.malloc (unsafeSize N h w) (w.next + 2), Event.malloc (unsafeSize N h w) (w.next + 3),
    Event.malloc (unsafeSize N h w) (w.next + 4)]

/-! ## Basic facts -/

theorem overlay_length (buf data : List Nat) : (overlay buf data).length = buf.length := by
  simp only [overlay, List.length_append, List.length_take, List.length_drop]
  omega

theorem makeslice_some {maxAlloc elemSize : Nat} {len : Int} {n : Nat}
    (h : makeslice maxAlloc elemSize len = some n) : (n : Int) = len ∧ n * elemSize ≤ maxAlloc := by
  unfold makeslice at h
  split at h
  · cases h
  · rename_i hc
    simp only [Option.some.injEq] at h
    subst h
    push_neg at hc
    exact ⟨Int.toNat_of_nonneg hc.1, hc.2⟩

theorem Ccodes_get_long_trace (N : Native) (h : Nat) (key : String) (w : World) :
    (Ccodes_get_long N h key w).2.trace =
      w.trace ++ [Event.malloc (key.utf8ByteSize + 1) (w.next + 1),
        Event.codes_get_long h key
          (N.codes_get_long (w.trace ++ [Event.malloc (key.utf8ByteSize + 1) (w.next + 1)])
            h key).1,
        Event.free (w.next + 1)] := by
  unfold Ccodes_get_long
  dsimp only
  split <;> simp [C_CString, C_malloc, C_free, World.emit]

theorem Ccodes_get_long_live (N : Native) (h : Nat) (key : String) (w : World) :
    (Ccodes_get_long N h key w).2.live = w.live := by
  unfold Ccodes_get_long
  dsimp only
  split <;> simp [C_CString, C_malloc, C_free, World.emit]

theorem Ccodes_get_long_next (N : Native) (h : Nat) (key : String) (w : World) :
    (Ccodes_get_long N h key w).2.next = w.next + 1 := by
  unfold Ccodes_get_long
  dsimp only
  split <;> simp [C_CString, C_malloc, C_free, World.emit]

theorem get_string_events_fixed (N : Native) (h : Nat) (key : String) (w : World) (L : Nat)
    (hq : N.codes_get_length (afterKey key w) h key = (0, L))
    (hlen : CsizeT (L + 1) ≤ MaxStringLength) :
    ∃ st, newEvents w (Ccodes_get_string N h key w).2 =
      [Event.malloc (key.utf8ByteSize + 1) (w.next + 1), Event.codes_get_length h key 0,
        Event.codes_get_string h key MaxStringLength (CsizeT (L + 1)) st,
        Event.free (w.next + 1)] := by
  unfold afterKey at hq
  have hnot : ¬ CsizeT (L + 1) > MaxStringLength := by omega
  refine ⟨(N.codes_get_string (w.trace ++ [Event.malloc (key.utf8ByteSize + 1) (w.next + 1),
    Event.codes_get_length h key 0]) h key MaxStringLength (CsizeT (L + 1))).status, ?_⟩
  unfold Ccodes_get_string newEvents
  simp only [C_CString, C_malloc, World.emit, hq, ne_eq, not_true_eq_false, if_false, hnot,
    List.append_assoc, List.singleton_append]
  have hM : MaxStringLength ≠ 0 := by decide
  simp only [hM, if_false]
  split
  · simp [C_free]
  · split
    · simp [C_free]
    · split <;> simp [C_free]

theorem get_string_events_dynamic (N : Native) (h : Nat) (key : String) (w : World) (L : Nat)
    (hq : N.codes_get_length (afterKey key w) h key = (0, L))
    (hlen : MaxStringLength < CsizeT (L + 1)) (hmax : CsizeT (L + 1) ≤ N.maxAlloc) :
    ∃ st, newEvents w (Ccodes_get_string N h key w).2 =
      [Event.malloc (key.utf8ByteSize + 1) (w.next + 1), Event.codes_get_length h key 0,
        Event.log_printf key (toInt64 (CsizeT (L + 1))),
        Event.codes_get_string h key (CsizeT (L + 1)) (CsizeT (L + 1)) st,
        Event.free (w.next + 1)] := by
  unfold afterKey at hq
  have hyes : CsizeT (L + 1) > MaxStringLength := hlen
  have hmk : makeslice N.maxAlloc 1 ((CsizeT (L + 1) : Nat) : Int) = some (CsizeT (L + 1)) := by
    unfold makeslice
    rw [if_neg]
    · simp
    · simp only [Int.toNat_ofNat, mul_one, not_or, not_lt]
      exact ⟨Int.ofNat_nonneg _, hmax⟩
  have hne : CsizeT (L + 1) ≠ 0 := by
    intro h0
    rw [h0] at hlen
    exact absurd hlen (by decide)
  refine ⟨(N.codes_get_string (w.trace ++ [Event.malloc (key.utf8ByteSize + 1) (w.next + 1),
    Event.codes_get_length h key 0, Event.log_printf key (toInt64 (CsizeT (L + 1)))]) h key
      (CsizeT (L + 1)) (CsizeT (L + 1))).status, ?_⟩
  unfold Ccodes_get_string newEvents
  simp only [C_CString, C_malloc, World.emit, hq, ne_eq, not_true_eq_false, if_false, hyes,
    if_true, hmk, hne, List.append_assoc, List.singleton_append]
  split
  · simp [C_free]
  · split
    · simp [C_free]
    · split <;> simp [C_free]

theorem get_string_events_toobig (N : Native) (h : Nat) (key : String) (w : World) (L : Nat)
    (hq : N.codes_get_length (afterKey key w) h key = (0, L))
    (hlen : MaxStringLength < CsizeT (L + 1)) (hmax : N.maxAlloc < CsizeT (L + 1)) :
    newEvents w (Ccodes_get_string N h key w).2 =
      [Event.malloc (key.utf8ByteSize + 1) (w.next + 1), Event.codes_get_length h key 0,
        Event.log_printf key (toInt64 (CsizeT (L + 1))),
        Event.free (w.next + 1)] := by
  unfold afterKey at hq
  have hyes : CsizeT (L + 1) > MaxStringLength := hlen
  have hmk : makeslice N.maxAlloc 1 ((CsizeT (L + 1) : Nat) : Int) = none := by
    unfold makeslice
    rw [if_pos]
    right
    simpa using hmax
  unfold Ccodes_get_string newEvents
  simp [C_CString, C_malloc, World.emit, hq, hyes, hmk, C_free]

/-! ## Claims -/

/-- C2: whenever `Data()` returns, then (a) if the error is nil the three slices are non-nil,
have the same length, and that length is the value `Ccodes_get_long` returns for
"numberOfDataPoints" on the same handle in the same world; (b) if the error is non-nil all
three slices are nil. -/
theorem Data_lengths (N : Native) (m : message) (w : World)
    (lat lon vals : Option (List Nat)) (err : Option GoError)
    (hret : (message.Data N m w).1 = Outcome.ret (lat, lon, vals, err)) :
    (err = none → ∃ la lo va, lat = some la ∧ lon = some lo ∧ vals = some va ∧
        la.length = lo.length ∧ lo.length = va.length ∧
        (Ccodes_get_long N m.handle ParameterNumberOfPoints w).1 = ((la.length : Int), none)) ∧
    (err ≠ none → lat = none ∧ lon = none ∧ vals = none) := by
  unfold message.Data Ccodes_grib_get_data at hret
  dsimp only at hret
  split at hret
  · simp only [Outcome.ret.injEq, Prod.mk.injEq] at hret
    obtain ⟨rfl, rfl, rfl, rfl⟩ := hret
    simp
  · rename_i hnone
    split at hret
    · cases hret
    · rename_i n hn
      have hlen := (makeslice_some hn).1
      split at hret
      · cases hret
      · split at hret
        · simp only [Outcome.ret.injEq, Prod.mk.injEq] at hret
          obtain ⟨rfl, rfl, rfl, rfl⟩ := hret
          simp
        · simp only [Outcome.ret.injEq, Prod.mk.injEq] at hret
          obtain ⟨rfl, rfl, rfl, rfl⟩ := hret
          refine ⟨fun _ => ⟨_, _, _, rfl, rfl, rfl, ?_, ?_, ?_⟩, fun h => absurd rfl h⟩
          · simp [overlay_length]
          · simp [overlay_length]
          · rw [overlay_length, List.length_replicate, hlen]
            exact Prod.ext rfl hnone

/-- Witness for C2: with the all-succeeding library, `Data()` returns three slices of length 2
and a nil error. -/
theorem Data_lengths_witness :
    (message.Data nativeOk ⟨5⟩ world0).1
        = Outcome.ret (some [1, 2], some [3, 4], some [5, 6], none) ∧
    ((none : Option GoError) = none → ∃ la lo va, some [1, 2] = some la ∧ some [3, 4] = some lo ∧
        some [5, 6] = some va ∧ la.length = lo.length ∧ lo.length = va.length ∧
        (Ccodes_get_long nativeOk (message.handle ⟨5⟩) ParameterNumberOfPoints world0).1
          = ((la.length : Int), none)) :=
  ⟨by decide, (Data_lengths nativeOk ⟨5⟩ world0 _ _ _ _ (by decide)).1⟩

/-- C9 (as stated) fails at `L = 1030`: the reported length does not exceed the threshold, yet
`Ccodes_get_string` logs the diagnostic and hands the native accessor a dynamically allocated
buffer of 1031 bytes. -/
theorem get_string_threshold_counterexample :
    ¬ ((Event.log_printf "k" 1031 ∈ newEvents world0 (Ccodes_get_string (nativeLen 1030) 5 "k" world0).2
          ∧ Event.codes_get_string 5 "k" 1031 1031 0
              ∈ newEvents world0 (Ccodes_get_string (nativeLen 1030) 5 "k" world0).2)
        ↔ MaxStringLength < 1030) := by
  decide

/-- C9 (amended): when the length query succeeds and reports `L`, `Ccodes_get_string` takes the
dynamic-allocation path (diagnostic logged, buffer of exactly `L + 1` bytes) if and only if
`L + 1`, computed in `size_t`, exceeds 1030; otherwise it uses the fixed 1030-byte buffer and logs
nothing. For `L + 1` representable that is: if and only if `L ≥ 1030`. -/
theorem get_string_dynamic_iff (N : Native) (h : Nat) (key : String) (w : World) (L : Nat)
    (hq : N.codes_get_length (afterKey key w) h key = (0, L)) :
    ((∃ n, Event.log_printf key n ∈ newEvents w (Ccodes_get_string N h key w).2)
        ↔ MaxStringLength < CsizeT (L + 1)) ∧
    (∀ cap len st, Event.codes_get_string h key cap len st
        ∈ newEvents w (Ccodes_get_string N h key w).2 →
        cap = if MaxStringLength < CsizeT (L + 1) then CsizeT (L + 1) else MaxStringLength) ∧
    (CsizeT (L + 1) ≤ MaxStringLength ∨ CsizeT (L + 1) ≤ N.maxAlloc →
        ∃ cap st, Event.codes_get_string h key cap (CsizeT (L + 1)) st
          ∈ newEvents w (Ccodes_get_string N h key w).2) ∧
    (L + 1 < 2 ^ 64 → (MaxStringLength < CsizeT (L + 1) ↔ MaxStringLength ≤ L)) := by
  refine ⟨?_, ?_, ?_, ?_⟩
  · by_cases hlen : MaxStringLength < CsizeT (L + 1)
    · simp only [hlen, iff_true]
      by_cases hmax : CsizeT (L + 1) ≤ N.maxAlloc
      · obtain ⟨st, hst⟩ := get_string_events_dynamic N h key w L hq hlen hmax
        exact ⟨toInt64 (CsizeT (L + 1)), by rw [hst]; simp⟩
      · have hst := get_string_events_toobig N h key w L hq hlen (by omega)
        exact ⟨toInt64 (CsizeT (L + 1)), by rw [hst]; simp⟩
    · simp only [hlen, iff_false, not_exists]
      obtain ⟨st, hst⟩ := get_string_events_fixed N h key w L hq (by omega)
      intro n
      rw [hst]
      simp
  · intro cap len st hmem
    by_cases hlen : MaxStringLength < CsizeT (L + 1)
    · rw [if_pos hlen]
      by_cases hmax : CsizeT (L + 1) ≤ N.maxAlloc
      · obtain ⟨st', hst⟩ := get_string_events_dynamic N h key w L hq hlen hmax
        rw [hst] at hmem
        simp at hmem
        exact hmem.1
      · have hst := get_string_events_toobig N h key w L hq hlen (by omega)
        rw [hst] at hmem
        simp at hmem
    · rw [if_neg hlen]
      obtain ⟨st', hst⟩ := get_string_events_fixed N h key w L hq (by omega)
      rw [hst] at hmem
      simp at hmem
      exact hmem.1
  · intro hcase
    by_cases hlen : MaxStringLength < CsizeT (L + 1)
    · have hmax : CsizeT (L + 1) ≤ N.maxAlloc := by
        rcases hcase with hc | hc
        · omega
        · exact hc
      obtain ⟨st, hst⟩ := get_string_events_dynamic N h key w L hq hlen hmax
      exact ⟨CsizeT (L + 1), st, by rw [hst]; simp⟩
    · obtain ⟨st, hst⟩ := get_string_events_fixed N h key w L hq (by omega)
      exact ⟨MaxStringLength, st, by rw [hst]; simp⟩
  · intro hrep
    have : CsizeT (L + 1) = L + 1 := Nat.mod_eq_of_lt hrep
    rw [this]
    omega

/-- Witness for C9 (amended): with a reported length of 2 the fixed buffer is used. -/
theorem get_string_dynamic_iff_witness :
    nativeOk.codes_get_length (afterKey "k" world0) 5 "k" = (0, 2) ∧
    ((∃ n, Event.log_printf "k" n ∈ newEvents world0 (Ccodes_get_string nativeOk 5 "k" world0).2)
        ↔ MaxStringLength < CsizeT (2 + 1)) :=
  ⟨rfl, (get_string_dynamic_iff nativeOk 5 "k" world0 2 rfl).1⟩

/-- C10: when the length query succeeds and reports `L` with `L + 1` representable as a
`size_t`, every call of the native string accessor made by `Ccodes_get_string` receives a buffer
of capacity at least `L + 1` and the length value exactly `L + 1`, on the fixed and on the dynamic
path; and the call is made whenever the buffer can be allocated. -/
theorem get_string_buffer_capacity (N : Native) (h : Nat) (key : String) (w : World) (L : Nat)
    (hq : N.codes_get_length (afterKey key w) h key = (0, L)) (hrep : L + 1 < 2 ^ 64) :
    (∀ h' k' cap len st, Event.codes_get_string h' k' cap len st
        ∈ newEvents w (Ccodes_get_string N h key w).2 → L + 1 ≤ cap ∧ len = L + 1) ∧
    (L + 1 ≤ MaxStringLength ∨ L + 1 ≤ N.maxAlloc →
        ∃ cap st, L + 1 ≤ cap ∧ Event.codes_get_string h key cap (L + 1) st
          ∈ newEvents w (Ccodes_get_string N h key w).2) := by
  have hwrap : CsizeT (L + 1) = L + 1 := Nat.mod_eq_of_lt hrep
  by_cases hlen : MaxStringLength < CsizeT (L + 1)
  · by_cases hmax : CsizeT (L + 1) ≤ N.maxAlloc
    · obtain ⟨st, hst⟩ := get_string_events_dynamic N h key w L hq hlen hmax
      rw [hst, hwrap]
      refine ⟨?_, fun _ => ⟨L + 1, st, le_refl _, by simp⟩⟩
      intro h' k' cap len st' hmem
      simp at hmem
      omega
    · have hst := get_string_events_toobig N h key w L hq hlen (by omega)
      rw [hst]
      refine ⟨?_, ?_⟩
      · intro h' k' cap len st' hmem
        simp at hmem
      · intro hcase
        rw [hwrap] at hlen hmax
        omega
  · obtain ⟨st, hst⟩ := get_string_events_fixed N h key w L hq (by omega)
    rw [hst, hwrap]
    rw [hwrap] at hlen
    refine ⟨?_, fun _ => ⟨MaxStringLength, st, by omega, by simp⟩⟩
    intro h' k' cap len st' hmem
    simp at hmem
    omega

/-- Witness for C10: a reported length of 2 gives the 1030-byte buffer and the length 3. -/
theorem get_string_buffer_capacity_witness :
    nativeOk.codes_get_length (afterKey "k" world0) 5 "k" = (0, 2) ∧ 2 + 1 < 2 ^ 64 ∧
    ∃ cap st, 2 + 1 ≤ cap ∧ Event.codes_get_string 5 "k" cap (2 + 1) st
      ∈ newEvents world0 (Ccodes_get_string nativeOk 5 "k" world0).2 :=
  ⟨rfl, by decide,
    (get_string_buffer_capacity nativeOk 5 "k" world0 2 rfl (by decide)).2 (Or.inl (by decide))⟩

/-- C5 (code at the failing input): when the size query succeeds and reports zero elements,
`Ccodes_get_double_array` does not return: taking the address of element 0 of the empty
buffer panics. -/
theorem get_double_array_zero_panics (N : Native) (h : Nat) (key : String) (w : World)
    (hq : N.codes_get_size (afterKey key w) h key = (0, 0)) :
    (Ccodes_get_double_array N h key w).1 = Outcome.panic Abort.index_out_of_range := by
  unfold afterKey at hq
  have hmk : makeslice N.maxAlloc 8 (toInt64 0) = some 0 := by
    simp [makeslice, toInt64]
  unfold Ccodes_get_double_array
  simp [C_CString, C_malloc, World.emit, hq, hmk]

/-- Witness for C5: the library whose size query reports zero elements. -/
theorem get_double_array_zero_panics_witness :
    nativeEmpty.codes_get_size (afterKey "k" world0) 5 "k" = (0, 0) ∧
    (Ccodes_get_double_array nativeEmpty 5 "k" world0).1
      = Outcome.panic Abort.index_out_of_range :=
  ⟨rfl, get_double_array_zero_panics nativeEmpty 5 "k" world0 rfl⟩

/-- The string-array half of C5: with zero elements reported, and the native array accessor
succeeding and leaving the size at zero, `Ccodes_get_string_array` returns an empty, non-nil
sequence and a nil error. -/
theorem get_string_array_zero (N : Native) (h : Nat) (key : String) (w : World)
    (hq : N.codes_get_size (afterKey key w) h key = (0, 0))
    (hst : (N.codes_get_string_array
        (afterKey key w ++ [Event.codes_get_size h key 0, Event.malloc 0 (w.next + 2)])
        h key (w.next + 2) 0).status = 0)
    (hsz : (N.codes_get_string_array
        (afterKey key w ++ [Event.codes_get_size h key 0, Event.malloc 0 (w.next + 2)])
        h key (w.next + 2) 0).size = 0) :
    (Ccodes_get_string_array N h key w).1 = Outcome.ret (some [], none) := by
  unfold afterKey at hq hst hsz
  simp only [List.append_assoc, List.singleton_append] at hst hsz
  have hmk : makeslice N.maxAlloc 16 (toInt64 0) = some 0 := by
    simp [makeslice, toInt64]
  unfold Ccodes_get_string_array
  simp [C_CString, C_malloc, World.emit, hq, CsizeT, hst, hsz, hmk, goStringsLoop]

/-- What the conversion loop of `Ccodes_get_string_array` computes, for every input: it yields
`n` strings, and the `j`-th of them is the C string at address `first + (i + j) * 8`, where
`first` is the content of slot 0 of the pointer array. No other slot is ever read. -/
theorem goStringsLoop_element (mem : List Nat) (first : Nat) :
    ∀ (n i : Nat) (strs : List (List Nat)), goStringsLoop mem first i n = some strs →
      strs.length = n ∧
      ∀ j, j < n → GoString mem ((first + (i + j) * 8) % 2 ^ 64) = strs[j]? := by
  intro n
  induction n with
  | zero =>
    intro i strs hloop
    simp only [goStringsLoop, Option.some.injEq] at hloop
    subst hloop
    exact ⟨rfl, fun j hj => absurd hj (Nat.not_lt_zero j)⟩
  | succ k ih =>
    intro i strs hloop
    unfold goStringsLoop at hloop
    cases hgo : GoString mem ((first + i * 8) % 2 ^ 64) with
    | none =>
      rw [hgo] at hloop
      cases hloop
    | some str =>
      rw [hgo] at hloop
      cases hrest : goStringsLoop mem first (i + 1) k with
      | none =>
        rw [hrest] at hloop
        cases hloop
      | some rest =>
        rw [hrest] at hloop
        simp only [Option.map_some', Option.some.injEq] at hloop
        subst hloop
        obtain ⟨hlen, hget⟩ := ih (i + 1) rest hrest
        refine ⟨by simp [hlen], ?_⟩
        intro j hj
        cases j with
        | zero => simpa using hgo
        | succ j' =>
          have hj' : j' < k := by omega
          have := hget j' hj'
          have hidx : i + 1 + j' = i + (j' + 1) := by omega
          rw [hidx] at this
          simpa using this

/-- C3 (code at the failing input): the native accessor reports two strings, "ab" at address 16
(slot 0) and "cd" at address 32 (slot 1). `Ccodes_get_string_array` returns "ab" and then the
C string found 8 bytes after the start of "ab" (empty here), not the string "cd" that slot 1
points to. -/
theorem get_string_array_second_element :
    (nativeOk.codes_get_string_array [] 5 "k" 2 2).status = 0 ∧
    (nativeOk.codes_get_string_array [] 5 "k" 2 2).size = 2 ∧
    GoString (nativeOk.codes_get_string_array [] 5 "k" 2 2).mem
      ((nativeOk.codes_get_string_array [] 5 "k" 2 2).slots 0) = some [97, 98] ∧
    GoString (nativeOk.codes_get_string_array [] 5 "k" 2 2).mem
      ((nativeOk.codes_get_string_array [] 5 "k" 2 2).slots 1) = some [99, 100] ∧
    (Ccodes_get_string_array nativeOk 5 "k" world0).1
      = Outcome.ret (some [[97, 98], []], none) := by
  decide

/-- C4 (as stated) fails when the native clone call returns a non-null handle and leaves a
non-zero `errno`: `Clone` then returns neither the end-of-input signal nor a nil error, and no
Message. -/
theorem Clone_errno_counterexample :
    (nativeErrno.codes_handle_clone world0.trace 5).1 ≠ 0 ∧
    (message.Clone nativeErrno ⟨5⟩ world0).1 = (none, some (GoError.errno 2)) ∧
    ¬ ((message.Clone nativeErrno ⟨5⟩ world0).1.2 = none) := by
  decide

/-- C4 (amended): `Clone` fails with the end-of-input signal if and only if the native clone
call returns a null handle. When the handle is non-null and the call left `errno` at zero,
`Clone` returns a nil error and a new Message wrapping exactly that handle. When the handle is
non-null and `errno` is non-zero, `Clone` returns that `errno` as its error and no Message. -/
theorem Clone_result (N : Native) (m : message) (w : World) :
    ((message.Clone N m w).1.2 = some GoError.EOF
        ↔ (N.codes_handle_clone w.trace m.handle).1 = 0) ∧
    ((N.codes_handle_clone w.trace m.handle).1 ≠ 0 →
      (N.codes_handle_clone w.trace m.handle).2 = 0 →
        (message.Clone N m w).1
          = (some ⟨(N.codes_handle_clone w.trace m.handle).1⟩, none)) ∧
    ((N.codes_handle_clone w.trace m.handle).1 ≠ 0 →
      (N.codes_handle_clone w.trace m.handle).2 ≠ 0 →
        (message.Clone N m w).1
          = (none, some (GoError.errno (N.codes_handle_clone w.trace m.handle).2))) := by
  unfold message.Clone Ccodes_clone newMessage
  by_cases h0 : (N.codes_handle_clone w.trace m.handle).1 = 0
  · simp [h0]
  · by_cases h1 : (N.codes_handle_clone w.trace m.handle).2 = 0
    · simp [h0, h1]
    · simp [h0, h1]

/-- Witness for C4 (amended): the all-succeeding library clones handle 5 into handle 7. -/
theorem Clone_result_witness :
    (message.Clone nativeOk ⟨5⟩ world0).1 = (some ⟨7⟩, none) :=
  (Clone_result nativeOk ⟨5⟩ world0).2.1 (by decide) (by decide)

/-- The three ways `Ccodes_grib_get_data_unsafe` can run: the point-count query fails; the
query succeeds and the grid extraction fails; both succeed. In each case the result, the live
allocations and the events of the call are given exactly. -/
theorem get_data_unsafe_cases (N : Native) (h : Nat) (w : World) :
    (∃ st, st ≠ 0 ∧ ( Ccodes_grib_get_data_unsafe N h w).1 = (0, 0, 0, some (GoError.wrapf
        (GoError.native st) "failed to get long value of 'numberOfDataPoints'")) ∧
      ( Ccodes_grib_get_data_unsafe N h w).2.live = w.live ∧
      newEvents w ( Ccodes_grib_get_data_unsafe N h w).2 =
        [Event.malloc (ParameterNumberOfPoints.utf8ByteSize + 1) (w.next + 1),
          Event.codes_get_long h ParameterNumberOfPoints st, Event.free (w.next + 1)]) ∨
    (∃ sz st, st ≠ 0 ∧
      ( Ccodes_grib_get_data_unsafe N h w).1 = (0, 0, 0, some (GoError.native st)) ∧
      ( Ccodes_grib_get_data_unsafe N h w).2.live = w.live ∧
      newEvents w ( Ccodes_grib_get_data_unsafe N h w).2 =
        [Event.malloc (ParameterNumberOfPoints.utf8ByteSize + 1) (w.next + 1),
          Event.codes_get_long h ParameterNumberOfPoints 0, Event.free (w.next + 1),
          Event.malloc sz (w.next + 2), Event.malloc sz (w.next + 3),
          Event.malloc sz (w.next + 4),
          Event.codes_grib_get_data_ptr h (w.next + 2) (w.next + 3) (w.next + 4) st,
          Event.free (w.next + 2), Event.free (w.next + 3), Event.free (w.next + 4)]) ∨
    (∃ sz, ( Ccodes_grib_get_data_unsafe N h w).1 = (w.next + 2, w.next + 3, w.next + 4, none) ∧
      ( Ccodes_grib_get_data_unsafe N h w).2.live
        = (w.next + 4) :: (w.next + 3) :: (w.next + 2) :: w.live ∧
      newEvents w ( Ccodes_grib_get_data_unsafe N h w).2 =
        [Event.malloc (ParameterNumberOfPoints.utf8ByteSize + 1) (w.next + 1),
          Event.codes_get_long h ParameterNumberOfPoints 0, Event.free (w.next + 1),
          Event.malloc sz (w.next + 2), Event.malloc sz (w.next + 3),
          Event.malloc sz (w.next + 4),
          Event.codes_grib_get_data_ptr h (w.next + 2) (w.next + 3) (w.next + 4) 0]) := by
  by_cases hs : (N.codes_get_long (afterKey ParameterNumberOfPoints w) h
      ParameterNumberOfPoints).1 = 0
  · right
    by_cases hd : (N.codes_grib_get_data (unsafeCallTrace N h w) h).status = 0
    · right
      refine ⟨unsafeSize N h w, ?_⟩
      unfold unsafeCallTrace unsafeSize afterKey at *
      unfold Ccodes_grib_get_data_unsafe Ccodes_get_long newEvents
      simp [C_CString, C_malloc, World.emit, hs, C_free, Cmalloc, Cfree, hd]
    · left
      refine ⟨unsafeSize N h w, (N.codes_grib_get_data (unsafeCallTrace N h w) h).status,
        hd, ?_⟩
      unfold unsafeCallTrace unsafeSize afterKey at *
      unfold Ccodes_grib_get_data_unsafe Ccodes_get_long newEvents
      simp [C_CString, C_malloc, World.emit, hs, C_free, Cmalloc, Cfree, hd]
  · left
    refine ⟨(N.codes_get_long (afterKey ParameterNumberOfPoints w) h
      ParameterNumberOfPoints).1, hs, ?_⟩
    unfold afterKey at *
    unfold Ccodes_grib_get_data_unsafe Ccodes_get_long newEvents
    simp [C_CString, C_malloc, World.emit, hs, C_free]

/-- C6: if `Ccodes_grib_get_data_unsafe` (and so `DataUnsafe`) returns an error, the three
returned pointers are nil (`DataUnsafe` returns no view), the live native allocations after the
call are the live allocations before it, and every buffer allocated during the call has been
freed exactly once during the call. In particular, when the native grid extraction was called
and returned a non-zero status, each of the latitudes, longitudes and values buffers passed to
it is freed exactly once. -/
theorem get_data_unsafe_failure_frees (N : Native) (m : message) (w : World) (e : GoError)
    (herr : ( Ccodes_grib_get_data_unsafe N m.handle w).1.2.2.2 = some e) :
    ( Ccodes_grib_get_data_unsafe N m.handle w).1 = (0, 0, 0, some e) ∧
    (message.DataUnsafe N m w).1 = (none, none, none, some e) ∧
    (message.DataUnsafe N m w).2.live = w.live ∧
    (∀ sz p, Event.malloc sz p ∈ newEvents w (message.DataUnsafe N m w).2 →
      (newEvents w (message.DataUnsafe N m w).2).count (Event.free p) = 1) ∧
    (∀ lat lon val st, Event.codes_grib_get_data_ptr m.handle lat lon val st
        ∈ newEvents w (message.DataUnsafe N m w).2 →
      st ≠ 0 ∧
      (newEvents w (message.DataUnsafe N m w).2).count (Event.free lat) = 1 ∧
      (newEvents w (message.DataUnsafe N m w).2).count (Event.free lon) = 1 ∧
      (newEvents w (message.DataUnsafe N m w).2).count (Event.free val) = 1) := by
  have hw : (message.DataUnsafe N m w).2 = ( Ccodes_grib_get_data_unsafe N m.handle w).2 := by
    unfold message.DataUnsafe
    dsimp only
    split <;> rfl
  have hv : (message.DataUnsafe N m w).1 = (none, none, none, some e) := by
    unfold message.DataUnsafe
    dsimp only
    rw [herr]
  rw [hw]
  rcases get_data_unsafe_cases N m.handle w with
    ⟨st, _, hres, hlive, hev⟩ | ⟨sz, st, hst, hres, hlive, hev⟩ | ⟨sz, hres, _, _⟩
  · rw [hres] at herr ⊢
    simp only [Option.some.injEq] at herr
    subst herr
    refine ⟨rfl, hv, hlive, ?_, ?_⟩
    · intro sz p hmem
      rw [hev] at hmem ⊢
      simp at hmem
      rw [hmem.2]
      simp
    · intro lat lon val st' hmem
      rw [hev] at hmem
      simp at hmem
  · rw [hres] at herr ⊢
    simp only [Option.some.injEq] at herr
    subst herr
    refine ⟨rfl, hv, hlive, ?_, ?_⟩
    · intro sz' p hmem
      rw [hev] at hmem ⊢
      simp at hmem
      rcases hmem with ⟨_, rfl⟩ | ⟨_, rfl⟩ | ⟨_, rfl⟩ | ⟨_, rfl⟩ <;> simp
    · intro lat lon val st' hmem
      rw [hev] at hmem ⊢
      simp at hmem
      obtain ⟨rfl, rfl, rfl, rfl⟩ := hmem
      refine ⟨hst, ?_, ?_, ?_⟩ <;> simp
  · rw [hres] at herr
    cases herr

/-- Witness for C6: the grid extraction fails with status -1; the three buffers (pointers 2, 3
and 4) are freed and nothing stays allocated. -/
theorem get_data_unsafe_failure_frees_witness :
    ( Ccodes_grib_get_data_unsafe nativeDataFails (message.handle ⟨5⟩) world0).1.2.2.2
      = some (GoError.native (-1)) ∧
    (message.DataUnsafe nativeDataFails ⟨5⟩ world0).2.live = world0.live ∧
    Event.codes_grib_get_data_ptr 5 2 3 4 (-1)
      ∈ newEvents world0 (message.DataUnsafe nativeDataFails ⟨5⟩ world0).2 :=
  ⟨by decide,
    (get_data_unsafe_failure_frees nativeDataFails ⟨5⟩ world0 (GoError.native (-1))
      (by decide)).2.2.1,
    by decide⟩

/-- C8: for an open message, `Close` invokes the handle delete exactly once, on the message's
handle, returns what the delete returned and leaves the message closed whatever that was. The
finalizer logs a leak and closes exactly when the message is still open (on a closed message it
does nothing). Hence for a message that is closed and then finalized, the delete has been
invoked exactly once in total. -/
theorem Close_deletes_once (N : Native) (m : message) (w : World) (hopen : m.isOpen = true) :
    newEvents w (message.Close N m w).2.2 = [Event.Ccodes_handle_delete m.handle] ∧
    (message.Close N m w).1 = N.Ccodes_handle_delete w.trace m.handle ∧
    (message.Close N m w).2.1.isOpen = false ∧
    newEvents w (messageFinalizer N m w).2
      = [Event.log_print "message is not closed", Event.Ccodes_handle_delete m.handle] ∧
    (messageFinalizer N m w).1.isOpen = false ∧
    (∀ (m' : message) (w' : World),
      (Event.log_print "message is not closed" ∈ newEvents w' (messageFinalizer N m' w').2
        ↔ m'.isOpen = true) ∧
      (Event.Ccodes_handle_delete m'.handle ∈ newEvents w' (messageFinalizer N m' w').2
        ↔ m'.isOpen = true) ∧
      (m'.isOpen = false → messageFinalizer N m' w' = (m', w'))) ∧
    newEvents w (messageFinalizer N (message.Close N m w).2.1 (message.Close N m w).2.2).2
      = [Event.Ccodes_handle_delete m.handle] := by
  have hne : m.handle ≠ 0 := by
    simpa [message.isOpen] using hopen
  refine ⟨?_, rfl, ?_, ?_, ?_, ?_, ?_⟩
  · simp [message.Close, newEvents, World.emit]
  · simp [message.Close, message.isOpen]
  · simp [messageFinalizer, hopen, message.Close, newEvents, World.emit]
  · simp [messageFinalizer, message.Close, message.isOpen, hne]
  · intro m' w'
    by_cases ho : m'.isOpen = true
    · simp [messageFinalizer, ho, message.Close, newEvents, World.emit]
    · simp [messageFinalizer, ho, newEvents]
  · simp [messageFinalizer, message.Close, message.isOpen, newEvents, World.emit]

/-- Witness for C8: the open message with handle 5. -/
theorem Close_deletes_once_witness :
    (message.isOpen ⟨5⟩ = true) ∧
    newEvents world0 (messageFinalizer nativeOk (message.Close nativeOk ⟨5⟩ world0).2.1
      (message.Close nativeOk ⟨5⟩ world0).2.2).2 = [Event.Ccodes_handle_delete 5] :=
  ⟨by decide, (Close_deletes_once nativeOk ⟨5⟩ world0 (by decide)).2.2.2.2.2.2⟩

/-- C1 (as stated) fails: after `Close`, `GetLong` raises no "already closed" error of its own;
it passes the nil handle to the native `codes_get_long` and returns what that call gives, here
the value 2 and a nil error. -/
theorem accessor_after_Close_counterexample :
    (message.Close nativeOk ⟨5⟩ world0).2.1.isOpen = false ∧
    (message.GetLong nativeOk (message.Close nativeOk ⟨5⟩ world0).2.1 "k"
      (message.Close nativeOk ⟨5⟩ world0).2.2).1 = (2, none) ∧
    Event.codes_get_long 0 "k" 0 ∈
      (message.GetLong nativeOk (message.Close nativeOk ⟨5⟩ world0).2.1 "k"
        (message.Close nativeOk ⟨5⟩ world0).2.2).2.trace := by
  decide

theorem Ccodes_get_long_handles (N : Native) (h : Nat) (key : String) (w : World) :
    onlyHandle h (newEvents w (Ccodes_get_long N h key w).2) := by
  unfold onlyHandle handlesPassed newEvents
  rw [Ccodes_get_long_trace]
  simp [Event.handle]

theorem Ccodes_get_string_handles (N : Native) (h : Nat) (key : String) (w : World) :
    onlyHandle h (newEvents w (Ccodes_get_string N h key w).2) := by
  unfold onlyHandle handlesPassed newEvents Ccodes_get_string
  dsimp only
  repeat' split
  all_goals simp [C_CString, C_malloc, C_free, World.emit, Event.handle]

theorem Ccodes_set_long_handles (N : Native) (h : Nat) (key : String) (v : Int) (w : World) :
    onlyHandle h (newEvents w (Ccodes_set_long N h key v w).2) := by
  unfold onlyHandle handlesPassed newEvents Ccodes_set_long
  dsimp only
  repeat' split
  all_goals simp [C_CString, C_malloc, C_free, World.emit, Event.handle]

theorem Ccodes_get_double_handles (N : Native) (h : Nat) (key : String) (w : World) :
    onlyHandle h (newEvents w (Ccodes_get_double N h key w).2) := by
  unfold onlyHandle handlesPassed newEvents Ccodes_get_double
  dsimp only
  repeat' split
  all_goals simp [C_CString, C_malloc, C_free, World.emit, Event.handle]

theorem Ccodes_set_double_handles (N : Native) (h : Nat) (key : String) (v : Nat) (w : World) :
    onlyHandle h (newEvents w (Ccodes_set_double N h key v w).2) := by
  unfold onlyHandle handlesPassed newEvents Ccodes_set_double
  dsimp only
  repeat' split
  all_goals simp [C_CString, C_malloc, C_free, World.emit, Event.handle]

theorem Ccodes_get_string_array_handles (N : Native) (h : Nat) (key : String) (w : World) :
    onlyHandle h (newEvents w (Ccodes_get_string_array N h key w).2) := by
  unfold onlyHandle handlesPassed newEvents Ccodes_get_string_array
  dsimp only
  repeat' split
  all_goals simp [C_CString, C_malloc, C_free, World.emit, Event.handle]

theorem Ccodes_get_double_array_handles (N : Native) (h : Nat) (key : String) (w : World) :
    onlyHandle h (newEvents w (Ccodes_get_double_array N h key w).2) := by
  unfold onlyHandle handlesPassed newEvents Ccodes_get_double_array
  dsimp only
  repeat' split
  all_goals simp [C_CString, C_malloc, C_free, World.emit, Event.handle]

theorem Ccodes_grib_get_data_handles (N : Native) (h : Nat) (w : World) :
    onlyHandle h (newEvents w (Ccodes_grib_get_data N h w).2) := by
  unfold onlyHandle handlesPassed newEvents Ccodes_grib_get_data
  dsimp only
  repeat' split
  all_goals simp [Ccodes_get_long_trace, World.emit, Event.handle]

theorem Ccodes_grib_get_data_unsafe_handles (N : Native) (h : Nat) (w : World) :
    onlyHandle h (newEvents w ( Ccodes_grib_get_data_unsafe N h w).2) := by
  unfold onlyHandle handlesPassed
  rcases get_data_unsafe_cases N h w with
    ⟨st, _, _, _, hev⟩ | ⟨sz, st, _, _, _, hev⟩ | ⟨sz, _, _, hev⟩ <;>
  · rw [hev]
    simp [Event.handle]

theorem DataUnsafe_world (N : Native) (m : message) (w : World) :
    (message.DataUnsafe N m w).2 = ( Ccodes_grib_get_data_unsafe N m.handle w).2 := by
  unfold message.DataUnsafe
  dsimp only
  split <;> rfl

/-- C1 (amended): after `Close` the message's handle is nil and the message reports closed; no
accessor checks this. Each of GetLong, SetLong, GetDouble, SetDouble, GetString,
GetStringArray, GetDoubleArray, Data and DataUnsafe, called on the closed message, calls into
the native layer at least once and every such call receives the nil handle; the accessor's
result is that of the corresponding native-layer function applied to the nil handle (for
DataUnsafe: its error, or the three views wrapping its three pointers). -/
theorem accessor_after_Close (N : Native) (m : message) (w : World) (key : String)
    (i : Int) (d : Nat) (w' : World) :
    (message.Close N m w).2.1.handle = 0 ∧
    (message.Close N m w).2.1.isOpen = false ∧
    onlyHandle 0 (newEvents w' (message.GetLong N (message.Close N m w).2.1 key w').2) ∧
    onlyHandle 0 (newEvents w' (message.SetLong N (message.Close N m w).2.1 key i w').2) ∧
    onlyHandle 0 (newEvents w' (message.GetDouble N (message.Close N m w).2.1 key w').2) ∧
    onlyHandle 0 (newEvents w' (message.SetDouble N (message.Close N m w).2.1 key d w').2) ∧
    onlyHandle 0 (newEvents w' (message.GetString N (message.Close N m w).2.1 key w').2) ∧
    onlyHandle 0 (newEvents w' (message.GetStringArray N (message.Close N m w).2.1 key w').2) ∧
    onlyHandle 0 (newEvents w' (message.GetDoubleArray N (message.Close N m w).2.1 key w').2) ∧
    onlyHandle 0 (newEvents w' (message.Data N (message.Close N m w).2.1 w').2) ∧
    onlyHandle 0 (newEvents w' (message.DataUnsafe N (message.Close N m w).2.1 w').2) ∧
    message.GetLong N (message.Close N m w).2.1 key w' = Ccodes_get_long N 0 key w' ∧
    message.SetLong N (message.Close N m w).2.1 key i w' = Ccodes_set_long N 0 key i w' ∧
    message.GetDouble N (message.Close N m w).2.1 key w' = Ccodes_get_double N 0 key w' ∧
    message.SetDouble N (message.Close N m w).2.1 key d w' = Ccodes_set_double N 0 key d w' ∧
    message.GetString N (message.Close N m w).2.1 key w' = Ccodes_get_string N 0 key w' ∧
    message.GetStringArray N (message.Close N m w).2.1 key w'
      = Ccodes_get_string_array N 0 key w' ∧
    message.GetDoubleArray N (message.Close N m w).2.1 key w'
      = Ccodes_get_double_array N 0 key w' ∧
    message.Data N (message.Close N m w).2.1 w' = Ccodes_grib_get_data N 0 w' ∧
    (message.DataUnsafe N (message.Close N m w).2.1 w').2
      = ( Ccodes_grib_get_data_unsafe N 0 w').2 ∧
    (message.DataUnsafe N (message.Close N m w).2.1 w').1
      = (match ( Ccodes_grib_get_data_unsafe N 0 w').1.2.2.2 with
        | some err => (none, none, none, some err)
        | none =>
          (some (newFloat64ArrayUnsafe ( Ccodes_grib_get_data_unsafe N 0 w').1.1),
            some (newFloat64ArrayUnsafe ( Ccodes_grib_get_data_unsafe N 0 w').1.2.1),
            some (newFloat64ArrayUnsafe ( Ccodes_grib_get_data_unsafe N 0 w').1.2.2.1),
            none)) := by
  have hc : (message.Close N m w).2.1 = ⟨0⟩ := rfl
  rw [hc]
  refine ⟨rfl, rfl, ?_, ?_, ?_, ?_, ?_, ?_, ?_, ?_, ?_, rfl, rfl, rfl, rfl, rfl, rfl, rfl, rfl,
    DataUnsafe_world N ⟨0⟩ w', ?_⟩
  · exact Ccodes_get_long_handles N 0 key w'
  · exact Ccodes_set_long_handles N 0 key i w'
  · exact Ccodes_get_double_handles N 0 key w'
  · exact Ccodes_set_double_handles N 0 key d w'
  · exact Ccodes_get_string_handles N 0 key w'
  · exact Ccodes_get_string_array_handles N 0 key w'
  · exact Ccodes_get_double_array_handles N 0 key w'
  · exact Ccodes_grib_get_data_handles N 0 w'
  · rw [DataUnsafe_world]
    exact Ccodes_grib_get_data_unsafe_handles N 0 w'
  · unfold message.DataUnsafe
    dsimp only
    split <;> rfl

theorem Ccodes_get_long_statuses (N : Native) (h : Nat) (key : String) (w : World) :
    firstFailureIsLast (statuses (newEvents w (Ccodes_get_long N h key w).2)) ∧
    (anyFailure (statuses (newEvents w (Ccodes_get_long N h key w).2)) →
      (Ccodes_get_long N h key w).1.2 ≠ none) := by
  unfold anyFailure statuses newEvents Ccodes_get_long
  dsimp only
  repeat' split
  all_goals simp_all [C_CString, C_malloc, C_free, World.emit, Event.status, firstFailureIsLast]

theorem Ccodes_set_long_statuses (N : Native) (h : Nat) (key : String) (v : Int) (w : World) :
    firstFailureIsLast (statuses (newEvents w (Ccodes_set_long N h key v w).2)) ∧
    (anyFailure (statuses (newEvents w (Ccodes_set_long N h key v w).2)) →
      (Ccodes_set_long N h key v w).1 ≠ none) := by
  unfold anyFailure statuses newEvents Ccodes_set_long
  dsimp only
  repeat' split
  all_goals simp_all [C_CString, C_malloc, C_free, World.emit, Event.status, firstFailureIsLast]

theorem Ccodes_get_double_statuses (N : Native) (h : Nat) (key : String) (w : World) :
    firstFailureIsLast (statuses (newEvents w (Ccodes_get_double N h key w).2)) ∧
    (anyFailure (statuses (newEvents w (Ccodes_get_double N h key w).2)) →
      (Ccodes_get_double N h key w).1.2 ≠ none) := by
  unfold anyFailure statuses newEvents Ccodes_get_double
  dsimp only
  repeat' split
  all_goals simp_all [C_CString, C_malloc, C_free, World.emit, Event.status, firstFailureIsLast]

theorem Ccodes_set_double_statuses (N : Native) (h : Nat) (key : String) (v : Nat) (w : World) :
    firstFailureIsLast (statuses (newEvents w (Ccodes_set_double N h key v w).2)) ∧
    (anyFailure (statuses (newEvents w (Ccodes_set_double N h key v w).2)) →
      (Ccodes_set_double N h key v w).1 ≠ none) := by
  unfold anyFailure statuses newEvents Ccodes_set_double
  dsimp only
  repeat' split
  all_goals simp_all [C_CString, C_malloc, C_free, World.emit, Event.status, firstFailureIsLast]

theorem Ccodes_get_string_statuses (N : Native) (h : Nat) (key : String) (w : World) :
    firstFailureIsLast (statuses (newEvents w (Ccodes_get_string N h key w).2)) ∧
    (anyFailure (statuses (newEvents w (Ccodes_get_string N h key w).2)) →
      ∃ e, (Ccodes_get_string N h key w).1 = Outcome.ret ([], some e)) := by
  unfold anyFailure statuses newEvents Ccodes_get_string
  dsimp only
  repeat' split
  all_goals simp_all [C_CString, C_malloc, C_free, World.emit, Event.status, firstFailureIsLast]

theorem Ccodes_get_string_array_statuses (N : Native) (h : Nat) (key : String) (w : World) :
    firstFailureIsLast (statuses (newEvents w (Ccodes_get_string_array N h key w).2)) ∧
    (anyFailure (statuses (newEvents w (Ccodes_get_string_array N h key w).2)) →
      ∃ e, (Ccodes_get_string_array N h key w).1 = Outcome.ret (none, some e)) := by
  unfold anyFailure statuses newEvents Ccodes_get_string_array
  dsimp only
  repeat' split
  all_goals simp_all [C_CString, C_malloc, C_free, World.emit, Event.status, firstFailureIsLast]

theorem Ccodes_get_double_array_statuses (N : Native) (h : Nat) (key : String) (w : World) :
    firstFailureIsLast (statuses (newEvents w (Ccodes_get_double_array N h key w).2)) ∧
    (anyFailure (statuses (newEvents w (Ccodes_get_double_array N h key w).2)) →
      ∃ e, (Ccodes_get_double_array N h key w).1 = Outcome.ret (none, some e)) := by
  unfold anyFailure statuses newEvents Ccodes_get_double_array
  dsimp only
  repeat' split
  all_goals simp_all [C_CString, C_malloc, C_free, World.emit, Event.status, firstFailureIsLast]

theorem Ccodes_grib_get_data_statuses (N : Native) (h : Nat) (w : World) :
    firstFailureIsLast (statuses (newEvents w (Ccodes_grib_get_data N h w).2)) ∧
    (anyFailure (statuses (newEvents w (Ccodes_grib_get_data N h w).2)) →
      ∃ e, (Ccodes_grib_get_data N h w).1 = Outcome.ret (none, none, none, some e)) := by
  by_cases hs : (N.codes_get_long (afterKey ParameterNumberOfPoints w) h
      ParameterNumberOfPoints).1 = 0
  · unfold afterKey at hs
    unfold anyFailure statuses newEvents Ccodes_grib_get_data Ccodes_get_long
    simp only [C_CString, C_malloc, C_free, World.emit, hs, ne_eq, not_true_eq_false, if_false]
    repeat' split
    all_goals simp_all [Event.status, firstFailureIsLast]
  · unfold afterKey at hs
    unfold anyFailure statuses newEvents Ccodes_grib_get_data Ccodes_get_long
    simp [C_CString, C_malloc, C_free, World.emit, hs, Event.status, firstFailureIsLast]

theorem DataUnsafe_statuses (N : Native) (m : message) (w : World) :
    firstFailureIsLast (statuses (newEvents w (message.DataUnsafe N m w).2)) ∧
    (anyFailure (statuses (newEvents w (message.DataUnsafe N m w).2)) →
      ∃ e, (message.DataUnsafe N m w).1 = (none, none, none, some e)) := by
  rw [DataUnsafe_world]
  unfold anyFailure statuses message.DataUnsafe
  rcases get_data_unsafe_cases N m.handle w with
    ⟨st, hst, hres, _, hev⟩ | ⟨sz, st, hst, hres, _, hev⟩ | ⟨sz, hres, _, hev⟩
  · rw [hev]
    simp [hres, hst, Event.status, firstFailureIsLast]
  · rw [hev]
    simp [hres, hst, Event.status, firstFailureIsLast]
  · rw [hev]
    simp [hres, Event.status, firstFailureIsLast]

/-- C7 (as stated) fails for `Clone`: the set-missing-value call made while the new Message is
constructed returns the non-zero status -6, and `Clone` still returns a nil error. -/
theorem Clone_swallows_status_counterexample :
    Event.codes_set_double 7 parameterMissingValue NaN (-6)
      ∈ newEvents world0 (message.Clone nativeSetFails ⟨5⟩ world0).2 ∧
    anyFailure (statuses (newEvents world0 (message.Clone nativeSetFails ⟨5⟩ world0).2)) ∧
    (message.Clone nativeSetFails ⟨5⟩ world0).1 = (some ⟨7⟩, none) := by
  refine ⟨by decide, ⟨-6, by decide, by decide⟩, by decide⟩

/-- What `Clone` does with the results of its two native calls: a null clone or a non-zero
`errno` gives a non-nil error; a non-null clone with `errno` zero gives a nil error, whatever
the status of the set-missing-value call; and that call is made at most once. -/
theorem Clone_statuses (N : Native) (m : message) (w : World) :
    firstFailureIsLast (statuses (newEvents w (message.Clone N m w).2)) ∧
    ((N.codes_handle_clone w.trace m.handle).1 = 0
        ∨ (N.codes_handle_clone w.trace m.handle).2 ≠ 0 →
      (message.Clone N m w).1.2 ≠ none) ∧
    ((N.codes_handle_clone w.trace m.handle).1 ≠ 0 →
      (N.codes_handle_clone w.trace m.handle).2 = 0 →
        (message.Clone N m w).1.2 = none) := by
  by_cases h0 : (N.codes_handle_clone w.trace m.handle).1 = 0
  · unfold statuses newEvents message.Clone Ccodes_clone
    simp [h0, World.emit, Event.status, firstFailureIsLast]
  · by_cases h1 : (N.codes_handle_clone w.trace m.handle).2 = 0
    · unfold statuses newEvents message.Clone Ccodes_clone newMessage message.SetDouble
        Ccodes_set_double
      simp only [h0, h1, if_false, if_true, World.emit, C_CString, C_malloc, ne_eq]
      refine ⟨?_, ?_, ?_⟩
      · split <;> simp [C_free, Event.status, firstFailureIsLast]
      · simp
      · simp
    · unfold statuses newEvents message.Clone Ccodes_clone
      simp [h0, h1, World.emit, Event.status, firstFailureIsLast]

/-- C7 (amended): for GetLong, SetLong, GetDouble, SetDouble, GetString, GetStringArray,
GetDoubleArray, Data, DataUnsafe and Close, if any native call made while the operation runs
returns a non-zero status then the operation returns a non-nil error, and no native call is
repeated after it failed (no status-returning native call follows the failed one; `Close` makes
exactly one delete call). `Clone` surfaces a null clone and a non-zero `errno` of the clone
call, and makes the set-missing-value call at most once, but it does not look at the status of
that call: whenever the native clone returns a non-null handle with `errno` zero, `Clone`
returns a nil error. -/
theorem native_status_surfaced (N : Native) (m : message) (w : World) (key : String)
    (i : Int) (d : Nat) :
    (firstFailureIsLast (statuses (newEvents w (message.GetLong N m key w).2)) ∧
      (anyFailure (statuses (newEvents w (message.GetLong N m key w).2)) →
        (message.GetLong N m key w).1.2 ≠ none)) ∧
    (firstFailureIsLast (statuses (newEvents w (message.SetLong N m key i w).2)) ∧
      (anyFailure (statuses (newEvents w (message.SetLong N m key i w).2)) →
        (message.SetLong N m key i w).1 ≠ none)) ∧
    (firstFailureIsLast (statuses (newEvents w (message.GetDouble N m key w).2)) ∧
      (anyFailure (statuses (newEvents w (message.GetDouble N m key w).2)) →
        (message.GetDouble N m key w).1.2 ≠ none)) ∧
    (firstFailureIsLast (statuses (newEvents w (message.SetDouble N m key d w).2)) ∧
      (anyFailure (statuses (newEvents w (message.SetDouble N m key d w).2)) →
        (message.SetDouble N m key d w).1 ≠ none)) ∧
    (firstFailureIsLast (statuses (newEvents w (message.GetString N m key w).2)) ∧
      (anyFailure (statuses (newEvents w (message.GetString N m key w).2)) →
        ∃ e, (message.GetString N m key w).1 = Outcome.ret ([], some e))) ∧
    (firstFailureIsLast (statuses (newEvents w (message.GetStringArray N m key w).2)) ∧
      (anyFailure (statuses (newEvents w (message.GetStringArray N m key w).2)) →
        ∃ e, (message.GetStringArray N m key w).1 = Outcome.ret (none, some e))) ∧
    (firstFailureIsLast (statuses (newEvents w (message.GetDoubleArray N m key w).2)) ∧
      (anyFailure (statuses (newEvents w (message.GetDoubleArray N m key w).2)) →
        ∃ e, (message.GetDoubleArray N m key w).1 = Outcome.ret (none, some e))) ∧
    (firstFailureIsLast (statuses (newEvents w (message.Data N m w).2)) ∧
      (anyFailure (statuses (newEvents w (message.Data N m w).2)) →
        ∃ e, (message.Data N m w).1 = Outcome.ret (none, none, none, some e))) ∧
    (firstFailureIsLast (statuses (newEvents w (message.DataUnsafe N m w).2)) ∧
      (anyFailure (statuses (newEvents w (message.DataUnsafe N m w).2)) →
        ∃ e, (message.DataUnsafe N m w).1 = (none, none, none, some e))) ∧
    (newEvents w (message.Close N m w).2.2 = [Event.Ccodes_handle_delete m.handle] ∧
      (N.codes_handle_delete w.trace m.handle ≠ 0 →
        (message.Close N m w).1
          = some (GoError.native (N.codes_handle_delete w.trace m.handle)))) ∧
    (firstFailureIsLast (statuses (newEvents w (message.Clone N m w).2)) ∧
      ((N.codes_handle_clone w.trace m.handle).1 = 0
          ∨ (N.codes_handle_clone w.trace m.handle).2 ≠ 0 →
        (message.Clone N m w).1.2 ≠ none) ∧
      ((N.codes_handle_clone w.trace m.handle).1 ≠ 0 →
        (N.codes_handle_clone w.trace m.handle).2 = 0 →
          (message.Clone N m w).1.2 = none)) :=
  ⟨Ccodes_get_long_statuses N m.handle key w,
    Ccodes_set_long_statuses N m.handle key i w,
    Ccodes_get_double_statuses N m.handle key w,
    Ccodes_set_double_statuses N m.handle key d w,
    Ccodes_get_string_statuses N m.handle key w,
    Ccodes_get_string_array_statuses N m.handle key w,
    Ccodes_get_double_array_statuses N m.handle key w,
    Ccodes_grib_get_data_statuses N m.handle w,
    DataUnsafe_statuses N m w,
    ⟨by simp [message.Close, newEvents, World.emit],
      fun hst => by simp [message.Close, Native.Ccodes_handle_delete, hst]⟩,
    Clone_statuses N m w⟩

/-- Witness for C7 (amended): the point-count query fails with status -10 and `Data` returns
the wrapped error; the handle delete fails with status -3 and `Close` returns that error. -/
theorem native_status_surfaced_witness :
    (anyFailure (statuses (newEvents world0 (message.Data nativeLongFails ⟨5⟩ world0).2)) ∧
      ∃ e, (message.Data nativeLongFails ⟨5⟩ world0).1
        = Outcome.ret (none, none, none, some e)) ∧
    (nativeDeleteFails.codes_handle_delete world0.trace (message.handle ⟨5⟩) ≠ 0 ∧
      (message.Close nativeDeleteFails ⟨5⟩ world0).1 = some (GoError.native (-3))) :=
  ⟨⟨⟨-10, by decide, by decide⟩,
      (native_status_surfaced nativeLongFails ⟨5⟩ world0 "k" 0 0).2.2.2.2.2.2.2.1.2
        ⟨-10, by decide, by decide⟩⟩,
    ⟨by decide,
      (native_status_surfaced nativeDeleteFails ⟨5⟩ world0 "k" 0 0).2.2.2.2.2.2.2.2.2.1.2
        (by decide)⟩⟩

end Eccodes
